import Mathlib

/-!
Shallow embedding of the download-orchestration core of the terabox-cli
repository (files `terabox_cli.py` and `terabox_gui.py`), together with
theorems settling the specification claims about it.

Each definition mirrors one Python function or code block; the doc comment
of a definition names its source.
-/

namespace Terabox

/-! ## Download history (`terabox_gui.py`, `TeraboxGUI.add_to_history`) -/

/-- One entry of the GUI download history (`history_entry` dict built in
`add_to_history`). -/
structure HistoryEntry where
  name : String
  size : Nat
  date : String
  status : String
  location : String
deriving Repr, DecidableEq

/-- `TeraboxGUI.add_to_history`: insert the new entry at index 0, then
truncate the list to its first 100 entries when it got longer than 100. -/
def add_to_history (history : List HistoryEntry) (e : HistoryEntry) :
    List HistoryEntry :=
  let h := e :: history
  if h.length > 100 then h.take 100 else h

/-! ## Retry backoff (`terabox_cli.py`, `TeraboxDownloader.calculate_delay`) -/

/-- `self.retry_delay = 2` set in `TeraboxDownloader.__init__`. -/
def retry_delay : ℚ := 2

/-- `backoff_factor = 1.5` in `calculate_delay`. -/
def backoff_factor : ℚ := 3 / 2

/-- `max_backoff = 60` in `calculate_delay`. -/
def max_backoff : ℚ := 60

/-- The deterministic part of `calculate_delay`:
`delay = min(self.retry_delay * (backoff_factor ** attempt), max_backoff)`. -/
def computedDelay (attempt : Nat) : ℚ :=
  min (retry_delay * backoff_factor ^ attempt) max_backoff

/-- `TeraboxDownloader.calculate_delay`: the returned value `delay + jitter`,
with the draw of `random.uniform(0, 0.1 * delay)` made explicit as the
argument `jitter`. -/
def calculate_delay (attempt : Nat) (jitter : ℚ) : ℚ :=
  computedDelay attempt + jitter

/-! ## Mirror URL selection (`terabox_cli.py`,
`TeraboxDownloader.test_download_speed`) -/

/-- `pat` is a character-wise prefix of `s`. -/
def startsWithChars : List Char → List Char → Bool
  | _, [] => true
  | [], _ :: _ => false
  | c :: cs, p :: ps => c == p && startsWithChars cs ps

/-- `pat` occurs contiguously somewhere in `s`. -/
def containsChars (pat : List Char) : List Char → Bool
  | [] => pat.isEmpty
  | c :: cs => startsWithChars (c :: cs) pat || containsChars pat cs

/-- Python's substring test `pat in s`. -/
def strContains (s pat : String) : Bool :=
  containsChars pat.toList s.toList

/-- The domain rewriting applied to a download URL throughout the CLI:
`url.replace("//cdn.", "//d.").replace("//c.", "//d.")
   .replace("//b.", "//d.").replace("//a.", "//d.")`. -/
def rewriteToD (url : String) : String :=
  ((((url.replace "//cdn." "//d.").replace "//c." "//d.").replace
      "//b." "//d.").replace "//a." "//d.")

/-- `TeraboxDownloader.test_download_speed`: return the first URL containing
`d.terabox.com`; otherwise, when the list is non-empty, return the first URL
with its host prefix rewritten to `//d.`; otherwise the empty string.
(The `sample_size` parameter is unused by the function body and omitted.) -/
def test_download_speed (urls : List String) : String :=
  match urls.find? (fun u => strContains u "d.terabox.com") with
  | some u => u
  | none =>
    match urls with
    | [] => ""
    | u :: _ => rewriteToD u

/-! ## Direct streaming download (`terabox_cli.py`,
`TeraboxDownloader.download_file`, non-aria2 branch) -/

/-- Observable outcome of the direct download method: the returned boolean,
whether the temporary `filename + ".tmp"` file still exists afterwards and
its size, and whether it was renamed to the final `filename`. -/
structure DirectOutcome where
  result : Bool
  tempExists : Bool
  tempSize : Nat
  finalExists : Bool
deriving Repr, DecidableEq

/-- Bytes written by the chunk loop of `download_file` before the
cancellation check fires. The loop checks `self.cancel_event.is_set()` at
each chunk boundary, before writing that chunk; `cancelAt = some k` means
the event is set from iteration `k` on, so exactly the first `k` chunks are
written. -/
def bytesWrittenBeforeCancel (chunks : List Nat) (cancelAt : Option Nat) : Nat :=
  match cancelAt with
  | none => chunks.sum
  | some k => (chunks.take k).sum

/-- Whether the chunk loop of `download_file` raised
`Exception("Download dibatalkan oleh pengguna")`: true iff the cancellation
event became set before the response body was exhausted. -/
def cancelledDuring (chunks : List Nat) (cancelAt : Option Nat) : Bool :=
  match cancelAt with
  | none => false
  | some k => k < chunks.length

/-- `TeraboxDownloader.download_file`, non-aria2 branch: stream the response
body (`chunks` gives the byte length of each chunk of
`response.iter_content(chunk_size=8192)`) into `filename + ".tmp"` opened in
truncate/write mode, checking the cancellation event per chunk only in the
non-quiet loop (the quiet loop at lines 769-772 writes without checking).
Afterwards, if `os.path.getsize(temp) == filesize` the temp file is renamed
onto `filename` and `True` is returned; any raised exception (cancellation,
size mismatch) reaches the handler that removes the temp file and returns
`False`. -/
def download_file_direct (quiet : Bool) (chunks : List Nat)
    (cancelAt : Option Nat) (filesize : Nat) : DirectOutcome :=
  let effCancel := if quiet then none else cancelAt
  if cancelledDuring chunks effCancel then
    -- exception raised mid-loop; handler removes the temp file
    ⟨false, false, 0, false⟩
  else
    let written := bytesWrittenBeforeCancel chunks effCancel
    if written = filesize then
      -- os.rename(temp_filename, filename); return True
      ⟨true, false, 0, true⟩
    else
      -- raise "Ukuran file tidak sesuai"; handler removes the temp file
      ⟨false, false, 0, false⟩

/-! ## Resume of a partial download (`terabox_cli.py`,
`TeraboxDownloader.resume_download`) -/

/-- Observable outcome of `resume_download`: the start of the requested
`Range` header if a ranged request was issued, whether the temp file was
opened in append mode, the temp size after the append loop, whether the
temp file was renamed to the destination now, and whether control fell
through to a full `download_file` restart. -/
structure ResumeOutcome where
  rangeStart : Option Nat
  appendMode : Bool
  sizeAfterAppend : Nat
  renamedNow : Bool
  fellBackToFull : Bool
deriving Repr, DecidableEq

/-- `TeraboxDownloader.resume_download` (no cancellation, no network error):
when the temp file exists with `current_size < filesize`, issue a request
with header `Range: bytes=current_size-`, open the temp file in "ab"
(append) mode and write every response chunk; if the resulting size equals
`filesize`, rename and return `True`; otherwise, and also when the temp file
is missing or already at least `filesize` bytes, fall through to
`self.download_file(url, filename, filesize)`. -/
def resume_download (tempExists : Bool) (currentSize filesize : Nat)
    (chunks : List Nat) : ResumeOutcome :=
  if tempExists && decide (currentSize < filesize) then
    let sz := currentSize + chunks.sum
    if sz = filesize then
      ⟨some currentSize, true, sz, true, false⟩
    else
      ⟨some currentSize, true, sz, false, true⟩
  else
    ⟨none, false, currentSize, false, true⟩

/-! ## Post-download verification and task status
(`terabox_gui.py`, `TeraboxGUI.download_file`, lines 934-974) -/

/-- The `success` flag computed after the aria2 loop in
`TeraboxGUI.download_file`: the file exists, `os.path.getsize(filename)`
equals `filesize`, and the full sequential 8 KiB read loop raised no
exception (`readOk`). -/
def gui_verify (fileExists : Bool) (actualSize filesize : Nat)
    (readOk : Bool) : Bool :=
  fileExists && (actualSize == filesize) && readOk

/-- Task status strings written into the GUI tree view and history. -/
inductive GStatus where
  | Completed
  | Failed
  | Cancelled
  | Error
deriving Repr, DecidableEq

/-- Tree-view status set at lines 954-960:
`status = "Completed" if success else "Failed"`, overridden to
`"Cancelled"` when `self.cancel_flag.is_set()`. -/
def gui_tree_status (success cancelled : Bool) : GStatus :=
  if cancelled then .Cancelled
  else if success then .Completed
  else .Failed

/-- History status recorded at lines 962-974:
`Completed` when `success and not self.cancel_flag.is_set()`, else
`Cancelled` when the flag is set, else `Failed`. -/
def gui_history_status (success cancelled : Bool) : GStatus :=
  if success && !cancelled then .Completed
  else if cancelled then .Cancelled
  else .Failed

/-! ## Stall supervision of the aria2 session
(`terabox_gui.py`, `TeraboxGUI.download_file`, lines 860-932) -/

/-- The monitor-loop bookkeeping of `TeraboxGUI.download_file`:
`retry_count`, `last_downloaded`, `last_progress_time`, plus a count of
how many times the session was removed and re-added with altered
parameters (`restarts`). Times are in whole seconds. -/
structure StallState where
  retryCount : Nat
  lastDownloaded : Nat
  lastProgressTime : Nat
  restarts : Nat
deriving Repr, DecidableEq

/-- `max_retries = 3` set before the monitor loop. -/
def max_retries : Nat := 3

/-- One throttled observation of the monitor loop (the body guarded by
`current_time - last_update_time >= 0.25`): if the reported byte count
equals `last_downloaded`, compute `stall_time`; past 30 seconds increment
`retry_count`, and on reaching `max_retries` remove and re-add the download
with reduced parameters, resetting `retry_count` (note that
`last_progress_time` is not reset there). On byte progress, reset
`retry_count` and `last_progress_time`. In every case `last_downloaded`
becomes the reported count. -/
def stallStep (s : StallState) (now downloaded : Nat) : StallState :=
  if downloaded = s.lastDownloaded then
    let stallTime := now - s.lastProgressTime
    if stallTime > 30 then
      let rc := s.retryCount + 1
      if rc ≥ max_retries then
        { retryCount := 0, lastDownloaded := downloaded,
          lastProgressTime := s.lastProgressTime, restarts := s.restarts + 1 }
      else
        { s with retryCount := rc, lastDownloaded := downloaded }
    else
      { s with lastDownloaded := downloaded }
  else
    { retryCount := 0, lastDownloaded := downloaded,
      lastProgressTime := now, restarts := s.restarts }

/-- Run the monitor bookkeeping over a sequence of
`(current_time, completed_length)` observations. The `while not
download.is_complete` loop has no exit for stalls: it only ever restarts
the session, so the run always yields another `StallState`, never a
failure. -/
def stallRun (s : StallState) : List (Nat × Nat) → StallState
  | [] => s
  | (t, d) :: rest => stallRun (stallStep s t d) rest

/-- Observations of an engine frozen at byte count `c`, one per second
starting just past the stall threshold: times `t0 + 31, t0 + 32, ...`. -/
def constObs (t0 c n : Nat) : List (Nat × Nat) :=
  (List.range n).map (fun i => (t0 + 31 + i, c))

/-! ## External engine availability and routing
(`terabox_cli.py` `_setup_aria2` / `download_file`;
`terabox_gui.py` `__init__` / `_setup_aria2` / `download_file`) -/

/-- Result of the aria2 setup in `TeraboxDownloader.__init__`: `use_aria2` is
the return value of `_setup_aria2()` (`True` only when `aria2/aria2c.exe` exists
and no exception is raised), and the yellow "aria2 tidak ditemukan" warning
panel is printed exactly when `use_aria2` is false. -/
structure CLIInit where
  use_aria2 : Bool
  warned : Bool
deriving Repr, DecidableEq

/-- `TeraboxDownloader.__init__` lines 80-83 together with `_setup_aria2`. -/
def cli_init (binExists setupRaised : Bool) : CLIInit :=
  let u := binExists && !setupRaised
  ⟨u, !u⟩

/-- The engine Terabox routes a download through. -/
inductive Route where
  | aria2Route
  | directRoute
deriving Repr, DecidableEq

/-- `TeraboxDownloader.download_file` lines 688-697: use
`download_with_aria2` when `self.use_aria2`, else the direct streaming
method. -/
def cli_download_route (use_aria2 : Bool) : Route :=
  if use_aria2 then .aria2Route else .directRoute

/-- `TeraboxGUI._setup_aria2` sets `self.aria2` only inside the branch where
the local `aria2c.exe` exists and no exception is raised; its boolean return
value is discarded by `__init__` (line 80). -/
def gui_aria2Set (binExists setupRaised : Bool) : Bool :=
  binExists && !setupRaised

/-- What becomes of a GUI download request. -/
inductive GuiDownloadOutcome where
  | startedViaAria2
  | taskError
deriving Repr, DecidableEq

/-- `TeraboxGUI.download_file` line 821 calls `self.aria2.add_uris`
unconditionally; when `self.aria2` was never set this raises
`AttributeError`, which the `except` block at line 986 turns into a task
error (history status `Error`), with no fallback to the direct engine. -/
def gui_download (aria2Set : Bool) : GuiDownloadOutcome :=
  if aria2Set then .startedViaAria2 else .taskError

/-! ## File-tree flattening (`terabox_cli.py`,
`TeraboxDownloader.flatten_files` and `_get_file_type`) -/

/-- The extension lists of `TeraboxDownloader._get_file_type`. -/
def videoExts : List String :=
  [".mp4", ".mov", ".m4v", ".mkv", ".asf", ".avi", ".wmv", ".m2ts", ".3g2"]

/-- See `videoExts`. -/
def imageExts : List String :=
  [".jpg", ".jpeg", ".png", ".gif", ".webp", ".svg"]

/-- See `videoExts`. -/
def docExts : List String :=
  [".pdf", ".docx", ".zip", ".rar", ".7z"]

/-- `TeraboxDownloader._get_file_type`: classify by substring tests on the
lower-cased name. -/
def get_file_type (name : String) : String :=
  let n := name.toLower
  if videoExts.any (fun e => strContains n e) then "video"
  else if imageExts.any (fun e => strContains n e) then "image"
  else if docExts.any (fun e => strContains n e) then "file"
  else "other"

/-- One node of the file listing returned by the link resolver: the dict
keys consumed by `flatten_files` (`name`, `path`, `size`, `fs_id`,
`is_dir`, `list`). -/
inductive FileNode where
  | mk (name : String) (path : String) (size : Nat) (fs_id : String)
      (is_dir : Bool) (children : List FileNode)

/-- The dict appended by `flatten_files` for a non-directory entry. -/
structure FlatFile where
  is_dir : Bool
  name : String
  path : String
  size : Nat
  fs_id : String
  display_path : String
  type : String
deriving Repr, DecidableEq

/-- The `current_path` computed per node: `parent_path + "/" + name` when
`parent_path` is non-empty, else just the name. -/
def childPath (parent name : String) : String :=
  if parent = "" then name else parent ++ "/" ++ name

/-- `TeraboxDownloader.flatten_files`: walk the nodes in order; append a
flat entry for each non-directory node, and for each directory node with a
non-empty `list` recurse into its children with the directory's
`current_path` as the new parent path. -/
def flatten_files : List FileNode → String → List FlatFile
  | [], _ => []
  | FileNode.mk n p sz id d ch :: rest, parent =>
    let current := childPath parent n
    (if d then [] else [⟨false, n, p, sz, id, current, get_file_type n⟩])
      ++ (if d && !ch.isEmpty then flatten_files ch current else [])
      ++ flatten_files rest parent

/-! ## Theorems -/

/-- C10: after every addition to the download history, the newest entry is
at position 0 and the history length never exceeds 100 entries; entries
beyond the first 100 are discarded. -/
theorem C10_history_newest_first_capped (h : List HistoryEntry)
    (e : HistoryEntry) :
    add_to_history h e = (e :: h).take 100 ∧
    (add_to_history h e).head? = some e ∧
    (add_to_history h e).length ≤ 100 := by
  have heq : add_to_history h e = (e :: h).take 100 := by
    unfold add_to_history
    by_cases hl : (e :: h).length > 100
    · simp [hl]
    · simp only [hl, if_false]
      exact (List.take_of_length_le (by omega)).symm
  refine ⟨heq, ?_, ?_⟩
  · rw [heq]
    rfl
  · rw [heq, List.length_take]
    omega

/-- C7: the retry backoff delay equals
`min(baseDelay * 1.5 ^ attempt, 60)` plus a jitter drawn uniformly from
`[0, 0.1 * delay]`, with `baseDelay = 2` (in the 2-3 second range); the
computed delay is monotonically non-decreasing in the attempt number, and
the returned delay always lies within
`[computedDelay, 1.1 * computedDelay]`. -/
theorem C7_backoff_delay (attempt : Nat) (j : ℚ) (h0 : 0 ≤ j)
    (h1 : j ≤ 1 / 10 * computedDelay attempt) :
    retry_delay = 2 ∧
    computedDelay attempt ≤ computedDelay (attempt + 1) ∧
    computedDelay attempt ≤ calculate_delay attempt j ∧
    calculate_delay attempt j ≤ 11 / 10 * computedDelay attempt := by
  refine ⟨rfl, ?_, ?_, ?_⟩
  · unfold computedDelay
    refine min_le_min ?_ le_rfl
    have hpow : backoff_factor ^ attempt ≤ backoff_factor ^ (attempt + 1) :=
      pow_le_pow_right₀ (by norm_num [backoff_factor]) (Nat.le_succ _)
    have h2 : (0:ℚ) ≤ retry_delay := by norm_num [retry_delay]
    exact mul_le_mul_of_nonneg_left hpow h2
  · unfold calculate_delay
    linarith
  · unfold calculate_delay
    linarith

/-- Witness for `C7_backoff_delay` at `attempt = 0`, `jitter = 0`. -/
theorem C7_backoff_delay_witness :
    (0:ℚ) ≤ 0 ∧ (0:ℚ) ≤ 1 / 10 * computedDelay 0 ∧
    (retry_delay = 2 ∧
     computedDelay 0 ≤ computedDelay 1 ∧
     computedDelay 0 ≤ calculate_delay 0 0 ∧
     calculate_delay 0 0 ≤ 11 / 10 * computedDelay 0) :=
  ⟨le_refl 0,
   by norm_num [computedDelay, retry_delay, backoff_factor, max_backoff],
   C7_backoff_delay 0 0 (le_refl 0)
     (by norm_num [computedDelay, retry_delay, backoff_factor, max_backoff])⟩

/-- C4: for a completed direct-streaming transfer (no cancellation), the
operation returns success iff the temporary file's size — the sum of the
written chunks — equals the expected size; on a mismatch it returns failure
with the temporary file removed, and on success the temporary file is
renamed onto the final destination path. -/
theorem C4_direct_finalize (quiet : Bool) (chunks : List Nat)
    (filesize : Nat) :
    ((download_file_direct quiet chunks none filesize).result = true ↔
       chunks.sum = filesize) ∧
    (chunks.sum = filesize →
       download_file_direct quiet chunks none filesize =
         ⟨true, false, 0, true⟩) ∧
    (chunks.sum ≠ filesize →
       download_file_direct quiet chunks none filesize =
         ⟨false, false, 0, false⟩) := by
  unfold download_file_direct cancelledDuring bytesWrittenBeforeCancel
  by_cases h : chunks.sum = filesize <;> cases quiet <;> simp [h]

/-- Witness for `C4_direct_finalize`: a two-chunk body totalling exactly
the expected 4100 bytes is renamed and reported successful. -/
theorem C4_direct_finalize_witness :
    ([4096, 4] : List Nat).sum = 4100 ∧
    download_file_direct false [4096, 4] none 4100 = ⟨true, false, 0, true⟩ :=
  ⟨by decide, (C4_direct_finalize false [4096, 4] 4100).2.1 (by decide)⟩

/-- C5: resuming a partial temporary file of size `k` with
`0 < k < expectedSize` issues a request with header `Range: bytes=k-`,
opens the temporary file in append mode (so bytes `[0, k)` are kept, never
re-downloaded), and when the server supplies the remaining
`expectedSize - k` bytes the file reaches exactly `expectedSize` and is
renamed to the destination. -/
theorem C5_resume_range_append (k filesize : Nat) (chunks : List Nat)
    (hk : 0 < k) (hlt : k < filesize) (hsrv : chunks.sum = filesize - k) :
    resume_download true k filesize chunks =
      ⟨some k, true, filesize, true, false⟩ := by
  unfold resume_download
  have hsz : k + chunks.sum = filesize := by omega
  simp [hlt, hsz]

/-- Witness for `C5_resume_range_append`: resume at byte 2 of a 5-byte
file; the server sends the remaining 3 bytes. -/
theorem C5_resume_range_append_witness :
    0 < 2 ∧ 2 < 5 ∧ ([3] : List Nat).sum = 5 - 2 ∧
    resume_download true 2 5 [3] = ⟨some 2, true, 5, true, false⟩ :=
  ⟨by decide, by decide, by decide,
   C5_resume_range_append 2 5 [3] (by decide) (by decide) (by decide)⟩

/-- C2 counterexample: with cancellation signalled at the second chunk
boundary of a three-chunk direct download, the engine raises an exception
whose handler deletes the partial temporary file (`tempExists = false`) and
returns the plain failure result `False` — identical to the outcome of a
size mismatch — rather than leaving the partial file in place and
returning a distinct `Cancelled` result, refuting the claim. -/
theorem C2_cancel_counterexample :
    download_file_direct false [8192, 8192, 8192] (some 1) 24576 =
      ⟨false, false, 0, false⟩ ∧
    download_file_direct false [8192, 8192, 8192] (some 1) 24576 =
      download_file_direct false [8192] none 24576 := by
  constructor <;> rfl

/-- C2 amended: when the cancellation signal becomes set at chunk boundary
`k` during a non-quiet direct download, the engine stops writing at that
boundary (exactly the first `k` chunks are written before the raise), but
the exception handler then deletes the partial temporary file and
`download_file` returns `False`, the same failure result as any error; in
quiet mode the cancellation signal is not checked inside the chunk loop at
all, so the download proceeds as if no cancellation were requested. -/
theorem C2_cancel_behavior (chunks : List Nat) (k filesize : Nat)
    (hc : k < chunks.length) :
    download_file_direct false chunks (some k) filesize =
      ⟨false, false, 0, false⟩ ∧
    bytesWrittenBeforeCancel chunks (some k) = (chunks.take k).sum ∧
    download_file_direct true chunks (some k) filesize =
      download_file_direct true chunks none filesize := by
  refine ⟨?_, rfl, rfl⟩
  unfold download_file_direct cancelledDuring
  simp [hc]

/-- Witness for `C2_cancel_behavior`: cancellation at chunk boundary 1 of a
two-chunk body. -/
theorem C2_cancel_behavior_witness :
    1 < ([8192, 8192] : List Nat).length ∧
    (download_file_direct false [8192, 8192] (some 1) 16384 =
       ⟨false, false, 0, false⟩ ∧
     bytesWrittenBeforeCancel [8192, 8192] (some 1) =
       (([8192, 8192] : List Nat).take 1).sum ∧
     download_file_direct true [8192, 8192] (some 1) 16384 =
       download_file_direct true [8192, 8192] none 16384) :=
  ⟨by decide, C2_cancel_behavior [8192, 8192] 1 16384 (by decide)⟩

/-- C6 counterexample: on the two-URL candidate list below, the mirror
"speed test" returns just the first URL containing `d.terabox.com`: no
probe is made, no score of the form `0.7 * throughput + 0.3 / latency` is
computed, no ordered list of all URLs is returned, and the second URL is
dropped — refuting the claim. -/
theorem C6_speed_test_counterexample :
    test_download_speed
        ["https://d.terabox.com/file/1", "https://d.terabox.com/file/2"] =
      "https://d.terabox.com/file/1" ∧
    "https://d.terabox.com/file/1" ≠ "https://d.terabox.com/file/2" := by
  constructor
  · decide
  · decide

/-- C6 amended: `test_download_speed` performs no speed measurement and
returns a single URL, not a ranked list: the first candidate containing
`d.terabox.com` when one exists, otherwise the first candidate with its
`//cdn.`, `//c.`, `//b.`, `//a.` host prefix rewritten to `//d.`, and the
empty string for an empty candidate list; all other candidates are
dropped. -/
theorem C6_url_selection (urls : List String) (hne : urls ≠ []) :
    (∀ u, urls.find? (fun v => strContains v "d.terabox.com") = some u →
       test_download_speed urls = u ∧ u ∈ urls ∧
       strContains u "d.terabox.com" = true) ∧
    (urls.find? (fun v => strContains v "d.terabox.com") = none →
       ∃ u rest, urls = u :: rest ∧
         test_download_speed urls = rewriteToD u ∧
         ∀ v ∈ urls, strContains v "d.terabox.com" = false) := by
  constructor
  · intro u hu
    refine ⟨?_, List.mem_of_find?_eq_some hu, ?_⟩
    · unfold test_download_speed
      rw [hu]
    · have h2 := List.find?_some hu
      simpa using h2
  · intro hn
    match urls, hne with
    | u :: rest, _ =>
      refine ⟨u, rest, rfl, ?_, ?_⟩
      · unfold test_download_speed
        rw [hn]
      · intro v hv
        have := List.find?_eq_none.mp hn v hv
        simpa using this

/-- Witness for `C6_url_selection`: a single-URL list with no
`d.terabox.com` candidate; the result is the head URL rewritten. -/
theorem C6_url_selection_witness :
    (["http://a.example/f"] : List String) ≠ [] ∧
    (∃ u rest, (["http://a.example/f"] : List String) = u :: rest ∧
       test_download_speed ["http://a.example/f"] = rewriteToD u ∧
       ∀ v ∈ (["http://a.example/f"] : List String),
         strContains v "d.terabox.com" = false) :=
  ⟨by decide, (C6_url_selection ["http://a.example/f"] (by decide)).2 (by decide)⟩

/-- C8: evaluation at the failing configuration (aria2 binary absent, no
setup exception). The CLI half of the claim holds: `use_aria2` is false,
the non-fatal warning is emitted, and `download_file` routes to the direct
streaming method. The GUI, however, discards the return value of `_setup_aria2`
and still routes every download through the unset `self.aria2` client, so
the request raises and the task is marked as an error instead of falling
back to the direct engine. -/
theorem C8_engine_unavailable_eval :
    cli_init false false = ⟨false, true⟩ ∧
    cli_download_route (cli_init false false).use_aria2 = .directRoute ∧
    gui_aria2Set false false = false ∧
    gui_download (gui_aria2Set false false) = .taskError := by
  decide

/-- C1: a task is marked `Completed` — in the GUI tree view or in the
download history, the only places a task status is recorded — only when
the verification succeeded: the file exists on disk, its size equals the
expected size exactly, and the full sequential read raised no error.
(The exception path of `TeraboxGUI.download_file` writes only `Cancelled`
or `Error` statuses, never `Completed`.) -/
theorem C1_completed_implies_verified (fileExists : Bool)
    (actualSize filesize : Nat) (readOk cancelled : Bool)
    (h : gui_tree_status (gui_verify fileExists actualSize filesize readOk)
           cancelled = .Completed ∨
         gui_history_status (gui_verify fileExists actualSize filesize readOk)
           cancelled = .Completed) :
    actualSize = filesize ∧ readOk = true ∧ fileExists = true := by
  have hs : gui_verify fileExists actualSize filesize readOk = true := by
    rcases h with h | h
    · unfold gui_tree_status at h
      by_cases hsucc : gui_verify fileExists actualSize filesize readOk = true
      · exact hsucc
      · simp [hsucc] at h
        cases cancelled <;> simp_all
    · unfold gui_history_status at h
      by_cases hsucc : gui_verify fileExists actualSize filesize readOk = true
      · exact hsucc
      · simp [hsucc] at h
        cases cancelled <;> simp_all
  unfold gui_verify at hs
  simp only [Bool.and_eq_true, beq_iff_eq] at hs
  exact ⟨hs.1.2, hs.2, hs.1.1⟩

/-- Witness for `C1_completed_implies_verified`: a verified 4100-byte file,
not cancelled, lands in the `Completed` tree status. -/
theorem C1_completed_implies_verified_witness :
    (gui_tree_status (gui_verify true 4100 4100 true) false = .Completed ∨
     gui_history_status (gui_verify true 4100 4100 true) false = .Completed) ∧
    (4100 = 4100 ∧ true = true ∧ true = true) :=
  ⟨Or.inl (by decide),
   C1_completed_implies_verified true 4100 4100 true false (Or.inl (by decide))⟩

/-- Running the monitor bookkeeping over concatenated observation lists. -/
theorem stallRun_append (s : StallState) (l1 l2 : List (Nat × Nat)) :
    stallRun s (l1 ++ l2) = stallRun (stallRun s l1) l2 := by
  induction l1 generalizing s with
  | nil => rfl
  | cons p rest ih =>
    cases p
    simp [stallRun, ih]

/-- C3 counterexample: with the engine frozen at 0 completed bytes from the
start, one observation 31 seconds in (longer than the 30-second stall
threshold) performs no restart at all (`restarts = 0`, refuting "the
supervisor restarts the session"), and twelve such observations perform
four restarts with the monitor still running (refuting "after maxRestarts
(3) restarts without byte progress the task transitions to the terminal
Failed state rather than being retried further"). -/
theorem C3_stall_counterexample :
    (stallRun ⟨0, 0, 0, 0⟩ (constObs 0 0 1)).restarts = 0 ∧
    (stallRun ⟨0, 0, 0, 0⟩ (constObs 0 0 12)).restarts = 4 := by
  constructor <;> decide

/-- C3 amended: each monitor observation made more than 30 seconds after
the last byte progress increments `retry_count` without restarting; on the
observation where the counter reaches `max_retries = 3` the session is
removed and re-added with reduced parameters and the counter resets (while
`last_progress_time` is left unchanged). Under an engine reporting a
constant byte count the supervisor therefore performs one restart per
three over-threshold observations, indefinitely — `n` observations yield
`n / 3` restarts — and the monitor loop has no transition to a `Failed`
state on account of stalls. -/
theorem C3_stall_restart_cycle (t0 c n : Nat) :
    stallRun ⟨0, c, t0, 0⟩ (constObs t0 c n) = ⟨n % 3, c, t0, n / 3⟩ := by
  induction n with
  | zero => rfl
  | succ n ih =>
    have hr : constObs t0 c (n + 1) = constObs t0 c n ++ [(t0 + 31 + n, c)] := by
      unfold constObs
      rw [List.range_succ, List.map_append]
      rfl
    rw [hr, stallRun_append, ih]
    show stallStep ⟨n % 3, c, t0, n / 3⟩ (t0 + 31 + n) c = _
    have h31 : t0 + 31 + n - t0 > 30 := by omega
    by_cases h3 : n % 3 + 1 ≥ max_retries
    · have e1 : (n + 1) % 3 = 0 := by
        unfold max_retries at h3
        omega
      have e2 : (n + 1) / 3 = n / 3 + 1 := by
        unfold max_retries at h3
        omega
      simp [stallStep, h31, h3, e1, e2]
    · have e1 : (n + 1) % 3 = n % 3 + 1 := by
        unfold max_retries at h3
        omega
      have e2 : (n + 1) / 3 = n / 3 := by
        unfold max_retries at h3
        omega
      simp [stallStep, h31, h3, e1, e2]

/-- Every entry produced by `flatten_files` is a non-directory entry. -/
theorem flatten_files_no_dirs (fs : List FileNode) (parent : String) :
    ∀ e ∈ flatten_files fs parent, e.is_dir = false := by
  induction fs, parent using flatten_files.induct with
  | case1 parent =>
    intro e he
    simp [flatten_files] at he
  | case2 n p sz id d ch rest parent current ih1 ih2 =>
    intro e he
    rw [flatten_files] at he
    simp only [List.mem_append] at he
    rcases he with (h | h) | h
    · cases d <;> simp_all
    · by_cases hcond : (d && !ch.isEmpty) = true
      · rw [if_pos hcond] at h
        exact ih1 e h
      · rw [if_neg hcond] at h
        simp at h
    · exact ih2 e h

/-- Entries produced under a non-empty parent path carry that path as a
`/`-separated prefix of their display path. -/
theorem flatten_files_display_prefixed (fs : List FileNode) (parent : String) :
    ∀ e ∈ flatten_files fs parent, parent ≠ "" →
      ∃ s, e.display_path = parent ++ "/" ++ s := by
  induction fs, parent using flatten_files.induct with
  | case1 parent =>
    intro e he
    simp [flatten_files] at he
  | case2 n p sz id d ch rest parent current ih1 ih2 =>
    intro e he hpar
    rw [flatten_files] at he
    simp only [List.mem_append] at he
    have hcur : current = parent ++ "/" ++ n := by
      show childPath parent n = parent ++ "/" ++ n
      simp [childPath, hpar]
    rcases he with (h | h) | h
    · cases d
      · simp at h
        subst h
        exact ⟨n, hcur⟩
      · simp at h
    · by_cases hcond : (d && !ch.isEmpty) = true
      · rw [if_pos hcond] at h
        have hcurne : current ≠ "" := by
          intro h0
          rw [hcur] at h0
          have hlen := congrArg String.length h0
          rw [String.length_append, String.length_append] at hlen
          have hone : ("/" : String).length = 1 := rfl
          have hzero : ("" : String).length = 0 := rfl
          omega
        obtain ⟨s, hs⟩ := ih1 e h hcurne
        refine ⟨n ++ "/" ++ s, ?_⟩
        rw [hs, hcur]
        simp [String.append_assoc]
      · rw [if_neg hcond] at h
        simp at h
    · exact ih2 e h hpar

/-- C9: the flattening of a file tree returns only non-directory entries —
a directory node itself contributes nothing, while its children are
recursively flattened with the directory's path as the new display-path
prefix — a non-directory node contributes exactly its own flat entry, and
the depth-first input order is preserved (the output of a node is its own
entry, then its flattened children, then the flattening of its right
siblings, as the two equations state). -/
theorem C9_flatten_files_spec :
    (∀ (fs : List FileNode) (parent : String),
       ∀ e ∈ flatten_files fs parent, e.is_dir = false) ∧
    (∀ (n p : String) (sz : Nat) (id : String) (ch rest : List FileNode)
       (parent : String),
       flatten_files (FileNode.mk n p sz id true ch :: rest) parent =
         flatten_files ch (childPath parent n) ++ flatten_files rest parent) ∧
    (∀ (n p : String) (sz : Nat) (id : String) (ch rest : List FileNode)
       (parent : String),
       flatten_files (FileNode.mk n p sz id false ch :: rest) parent =
         ⟨false, n, p, sz, id, childPath parent n, get_file_type n⟩ ::
           flatten_files rest parent) ∧
    (∀ (fs : List FileNode) (parent : String),
       ∀ e ∈ flatten_files fs parent, parent ≠ "" →
         ∃ s, e.display_path = parent ++ "/" ++ s) := by
  refine ⟨flatten_files_no_dirs, ?_, ?_, flatten_files_display_prefixed⟩
  · intro n p sz id ch rest parent
    cases ch with
    | nil => simp [flatten_files]
    | cons a l => simp [flatten_files]
  · intro n p sz id ch rest parent
    simp [flatten_files]

/-- Witness for `C9_flatten_files_spec`: the single file `"a"` flattened
under parent path `"d"`. -/
theorem C9_flatten_files_spec_witness :
    (FlatFile.mk false "a" "" 1 "i" (childPath "d" "a")
        (get_file_type "a")).is_dir = false ∧
    (∃ s, (FlatFile.mk false "a" "" 1 "i" (childPath "d" "a")
        (get_file_type "a")).display_path = "d" ++ "/" ++ s) :=
  ⟨C9_flatten_files_spec.1 [FileNode.mk "a" "" 1 "i" false []] "d" _
     (by simp [flatten_files]),
   C9_flatten_files_spec.2.2.2 [FileNode.mk "a" "" 1 "i" false []] "d" _
     (by simp [flatten_files]) (by decide)⟩

end Terabox
